import Mathlib

/-!
Shallow embedding of the WinCC Unified GraphQL client
(`src/c/src/wincc_unified.c`, with the transport boundary of
`src/c/src/graphql_client.c` and the cJSON library treated as external
collaborators).  Pure string building and JSON response mapping are
translated function by function; the HTTP transport (`graphql_execute`)
and the JSON parser (`cJSON_Parse`) are passed in as parameters
`exec : GqlRequest → Option String` and `parse : String → Option Json`,
matching their C signatures (NULL modelled as `none`).  Each public
operation additionally returns the list of requests it handed to the
transport, so that "no request was sent" is a provable statement.
-/

set_option autoImplicit false

namespace WinccUA

/-- JSON value tree as produced by `cJSON_Parse`.  Numbers are carried as
exact rationals standing for the `double` stored in `cJSON.valuedouble`. -/
inductive Json where
  | null : Json
  | bool : Bool → Json
  | num : ℚ → Json
  | str : String → Json
  | arr : List Json → Json
  | obj : List (String × Json) → Json

/-- ASCII `tolower`, as `strcasecmp` applies it byte by byte. -/
def charLower (c : Char) : Char :=
  if 'A' ≤ c ∧ c ≤ 'Z' then Char.ofNat (c.toNat + 32) else c

/-- `strcasecmp(a, b) == 0` at the character level. -/
def ciEqList : List Char → List Char → Bool
  | [], [] => true
  | a :: as, b :: bs => charLower a = charLower b && ciEqList as bs
  | _, _ => false

/-- Case-insensitive string equality (`strcasecmp`). -/
def strCaseEq (a b : String) : Bool := ciEqList a.data b.data

/-- Member lookup of `cJSON_GetObjectItem`: first member whose name matches
case-insensitively (cJSON compares with `strcasecmp`). -/
def lookupCI : List (String × Json) → String → Option Json
  | [], _ => none
  | (k, v) :: rest, name => if strCaseEq k name then some v else lookupCI rest name

/-- `cJSON_GetObjectItem`, tolerant of a NULL object argument the way the C
library is (returns NULL); a member whose value is JSON `null` is still
returned (cJSON returns the node). -/
def cJSON_GetObjectItem : Option Json → String → Option Json
  | some (Json.obj fields), name => lookupCI fields name
  | _, _ => none

/-- `node->valuestring`: the C field is non-NULL only for string nodes.
Call sites that `strdup` it for a non-string node are undefined behaviour
in the C; they are modelled as the `none` branch of this accessor. -/
def cJSON_valuestring : Json → Option String
  | Json.str s => some s
  | _ => none

/-- The `child` list a node carries: `cJSON_GetArraySize` is its length and
`cJSON_GetArrayItem` indexes it.  cJSON also walks an object's member list
this way, so objects expose their member values. -/
def cJSON_children : Json → List Json
  | Json.arr xs => xs
  | Json.obj fields => fields.map Prod.snd
  | _ => []

/-- `node->valueint` as cJSON fills it while parsing: the number cast to a
C `int` (truncation toward zero; out-of-range doubles are undefined in the
C and modelled by the same truncation), `1`/`0` for booleans, else `0`. -/
def cJSON_valueint : Json → Int
  | Json.num q => q.num.tdiv (q.den : Int)
  | Json.bool b => if b then 1 else 0
  | _ => 0

/-- Error payload `wincc_error_t` ({code, description}). -/
structure WError where
  error_code : String
  description : String
deriving DecidableEq, Repr

/-- A GraphQL request as handed to `graphql_execute`: the query document
and the (optional) variables JSON text (the C `variables` argument; the
field is named `vars` because `variables` is a reserved word in Lean). -/
structure GqlRequest where
  query : String
  vars : Option String
deriving DecidableEq, Repr

/-- Body built by `graphql_execute` around the query and variables
(variables are attached only when non-NULL and non-empty). -/
def graphql_request_body (r : GqlRequest) : String :=
  match r.vars with
  | some v =>
      if v = "" then "\x7b\"query\":\"" ++ r.query ++ "\"\x7d"
      else "\x7b\"query\":\"" ++ r.query ++ "\",\"variables\":" ++ v ++ "\x7d"
  | none => "\x7b\"query\":\"" ++ r.query ++ "\"\x7d"

/-- Client handle `struct wincc_client`; the header list lives in the
embedded `graphql_client` in the C and is folded into this record. -/
structure WinccClient where
  base_url : String
  username : String
  password : String
  token : Option String
  session_id : Option String
  headers : List (String × String)
deriving DecidableEq, Repr

/-- `wincc_client_new` composed with `graphql_client_new` (which seeds the
header list with the Content-Type header). -/
def wincc_client_new (base_url username password : String) : WinccClient :=
  { base_url := base_url
    username := username
    password := password
    token := none
    session_id := none
    headers := [("Content-Type", "application/json")] }

/-- One step of `escape_json_string`: the five specially handled characters
become their two-character escapes, everything else is copied. -/
def escapeChar (c : Char) : List Char :=
  if c = '"' then ['\\', '"']
  else if c = '\\' then ['\\', '\\']
  else if c = '\n' then ['\\', 'n']
  else if c = '\r' then ['\\', 'r']
  else if c = '\t' then ['\\', 't']
  else [c]

/-- `escape_json_string` on the character list of the input. -/
def escape_json_string_list (l : List Char) : List Char :=
  (l.map escapeChar).flatten

/-- `escape_json_string` (the C works on bytes; for the ASCII characters it
treats specially this coincides with the character-level view). -/
def escape_json_string (s : String) : String :=
  String.mk (escape_json_string_list s.data)

/-- Value of a hexadecimal digit, if the character is one. -/
def hexVal (c : Char) : Option Nat :=
  if '0' ≤ c ∧ c ≤ '9' then some (c.toNat - 48)
  else if 'a' ≤ c ∧ c ≤ 'f' then some (c.toNat - 87)
  else if 'A' ≤ c ∧ c ≤ 'F' then some (c.toNat - 55)
  else none

/-- Four hexadecimal digits to a number. -/
def hex4 (a b c d : Char) : Option Nat :=
  match hexVal a, hexVal b, hexVal c, hexVal d with
  | some x, some y, some z, some w => some (((x * 16 + y) * 16 + z) * 16 + w)
  | _, _, _, _ => none

/-- Decoded character of a one-letter JSON escape sequence (the standard
RFC 8259 table without the `\uXXXX` form). -/
def unescSimple (e : Char) : Option Char :=
  if e = '"' then some '"'
  else if e = '\\' then some '\\'
  else if e = '/' then some '/'
  else if e = 'b' then some (Char.ofNat 8)
  else if e = 'f' then some (Char.ofNat 12)
  else if e = 'n' then some '\n'
  else if e = 'r' then some '\r'
  else if e = 't' then some '\t'
  else none

/-- Decode the hex digits following a `\u` escape (with a UTF-16
surrogate pair when the first code unit is a high surrogate); returns the
decoded character and the remaining input. -/
def unescU : List Char → Option (Char × List Char)
  | a :: b :: c :: d :: r2 =>
    match hex4 a b c d with
    | none => none
    | some n =>
      if n < 0xD800 ∨ 0xDFFF < n then some (Char.ofNat n, r2)
      else if n ≤ 0xDBFF then
        match r2 with
        | b1 :: u1 :: a2 :: b2 :: c2 :: d2 :: r3 =>
          if b1 = '\\' ∧ u1 = 'u' then
            match hex4 a2 b2 c2 d2 with
            | some m =>
              if 0xDC00 ≤ m ∧ m ≤ 0xDFFF then
                some (Char.ofNat (0x10000 + (n - 0xD800) * 0x400 + (m - 0xDC00)), r3)
              else none
            | none => none
          else none
        | _ => none
      else none
  | _ => none

/-- Standard JSON string-escape decoding (RFC 8259 escape table, including
`\uXXXX` with UTF-16 surrogate pairs).  It decodes backslash sequences and
passes every other character through unchanged; it fails on a malformed or
truncated escape sequence. -/
def jsonUnescapeList : List Char → Option (List Char)
  | [] => some []
  | c :: rest =>
    if c = '\\' then
      match rest with
      | [] => none
      | e :: r =>
        if e = 'u' then
          match hu : unescU r with
          | some dr => (jsonUnescapeList dr.2).map (fun t => dr.1 :: t)
          | none => none
        else
          match unescSimple e with
          | some d => (jsonUnescapeList r).map (fun t => d :: t)
          | none => none
    else (jsonUnescapeList rest).map (fun t => c :: t)
termination_by l => l.length
decreasing_by
  · have hle : dr.2.length ≤ r.length := by
      have h := hu
      clear hu
      rcases r with _ | ⟨a, _ | ⟨b, _ | ⟨c, _ | ⟨d, r2⟩⟩⟩⟩
      · rw [unescU.eq_def] at h; exact absurd h (by simp)
      · rw [unescU.eq_def] at h; exact absurd h (by simp)
      · rw [unescU.eq_def] at h; exact absurd h (by simp)
      · rw [unescU.eq_def] at h; exact absurd h (by simp)
      rw [unescU.eq_def] at h
      simp only [] at h
      rcases hx : hex4 a b c d with _ | n
      · rw [hx] at h; exact absurd h (by simp)
      rw [hx] at h
      simp only [] at h
      split_ifs at h with h1 h2
      · injection h with h
        subst h
        simp only [List.length_cons]
        omega
      · rcases r2 with _ | ⟨b1, _ | ⟨u1, _ | ⟨a2, _ | ⟨b2, _ | ⟨c2, _ | ⟨d2, r3⟩⟩⟩⟩⟩⟩
        · exact absurd h (by simp)
        · exact absurd h (by simp)
        · exact absurd h (by simp)
        · exact absurd h (by simp)
        · exact absurd h (by simp)
        · exact absurd h (by simp)
        simp only [] at h
        split_ifs at h with h3
        · rcases hx2 : hex4 a2 b2 c2 d2 with _ | m
          · rw [hx2] at h; exact absurd h (by simp)
          rw [hx2] at h
          simp only [] at h
          split_ifs at h with h4
          · injection h with h
            subst h
            simp only [List.length_cons]
            omega
    simp only [List.length_cons]
    omega
  · simp only [List.length_cons]
    omega
  · simp only [List.length_cons]
    omega

/-- Digit count of a positive natural number (fuel-driven so the kernel can
evaluate it). -/
def numDigitsAux : Nat → Nat → Nat
  | 0, _ => 1
  | fuel + 1, n => if n < 10 then 1 else 1 + numDigitsAux fuel (n / 10)

/-- Digit count of `n` (for `n ≥ 1`). -/
def numDigits (n : Nat) : Nat := numDigitsAux n n

/-- Decimal digits of a natural number. -/
def natDigits (n : Nat) : List Char := (Nat.repr n).data

/-- Is `a / b ≥ 10 ^ d`?  (Comparison of the positive rational `a / b`
with a power of ten, phrased over naturals.) -/
def gePow10 (a b : Nat) (d : Int) : Bool :=
  if 0 ≤ d then b * 10 ^ d.toNat ≤ a else b ≤ a * 10 ^ (-d).toNat

/-- Round `n / d` (with `d > 0`) to the nearest integer, ties to even —
the correct rounding `printf` applies when shortening a decimal. -/
def roundHalfEvenND (n d : Nat) : Nat :=
  let q := n / d
  let r := n % d
  if 2 * r < d then q
  else if d < 2 * r then q + 1
  else if q % 2 = 0 then q else q + 1

/-- Drop trailing `'0'` characters. -/
def stripTrailingZeros (l : List Char) : List Char :=
  (l.reverse.dropWhile (fun c => c = '0')).reverse

/-- Exponent suffix of C `%e`/`%g` output: sign then at least two digits. -/
def sciExpChars (e : Int) : List Char :=
  let mag := natDigits e.natAbs
  let mag2 := if mag.length < 2 then List.replicate (2 - mag.length) '0' ++ mag else mag
  (if e < 0 then '-' else '+') :: mag2

/-- C `printf("%g", x)` for the positive value `a / b`, default precision 6:
round to 6 significant digits, use scientific notation when the decimal
exponent is below `-4` or at least `6`, and strip trailing zeros. -/
def fmtGPosND (a b : Nat) : String :=
  let p : Nat := 6
  let d : Int := (numDigits a : Int) - (numDigits b : Int)
  let e0 : Int := if gePow10 a b d then d else d - 1
  let k : Int := (p : Int) - 1 - e0
  let n := if 0 ≤ k then a * 10 ^ k.toNat else a
  let dd := if 0 ≤ k then b else b * 10 ^ (-k).toNat
  let m0 := roundHalfEvenND n dd
  let m := if m0 = 10 ^ p then 10 ^ (p - 1) else m0
  let e := if m0 = 10 ^ p then e0 + 1 else e0
  let ds0 := natDigits m
  let ds := List.replicate (p - ds0.length) '0' ++ ds0
  if e < -4 ∨ (p : Int) ≤ e then
    let frac := stripTrailingZeros (ds.drop 1)
    String.mk (ds.take 1 ++ (if frac.isEmpty then [] else '.' :: frac) ++ 'e' :: sciExpChars e)
  else if 0 ≤ e then
    let ip := ds.take (e.toNat + 1)
    let fp := stripTrailingZeros (ds.drop (e.toNat + 1))
    String.mk (ip ++ (if fp.isEmpty then [] else '.' :: fp))
  else
    let fp := stripTrailingZeros (List.replicate (e.natAbs - 1) '0' ++ ds)
    String.mk ('0' :: '.' :: fp)

/-- `snprintf(buffer, 64, "%g", value->valuedouble)` on the exact value. -/
def fmtPercentG (q : ℚ) : String :=
  if q.num = 0 then "0"
  else if q.num < 0 then "-" ++ fmtGPosND q.num.natAbs q.den
  else fmtGPosND q.num.natAbs q.den

/-- `isspace` over the characters `strtol` skips. -/
def isSpaceByte (c : Char) : Bool :=
  c = ' ' || c = '\t' || c = '\n' || c = '\x0b' || c = '\x0c' || c = '\r'

/-- Skip the leading whitespace `strtol` ignores. -/
def skipWs : List Char → List Char
  | [] => []
  | c :: r => if isSpaceByte c then skipWs r else c :: r

/-- The digit-consuming loop of `strtol`: accumulate the value and return
the unconsumed suffix. -/
def digitsLoop : Int → List Char → Int × List Char
  | acc, [] => (acc, [])
  | acc, c :: r =>
      if c.isDigit then digitsLoop (10 * acc + ((c.toNat : Int) - 48)) r
      else (acc, c :: r)

/-- Saturation of `strtol` at `LONG_MIN`/`LONG_MAX` (LP64 `long`). -/
def clampLong (v : Int) : Int :=
  if v < -(2 ^ 63) then -(2 ^ 63)
  else if 2 ^ 63 - 1 < v then 2 ^ 63 - 1
  else v

/-- The optional sign `strtol` consumes after the whitespace: the sign
factor and the remaining characters. -/
def signSplit (t : List Char) : Int × List Char :=
  match t with
  | [] => (1, [])
  | c :: r => if c = '-' then (-1, r) else if c = '+' then (1, r) else (1, c :: r)

/-- `strtol(s, &endptr, 10)`: returns the (saturated) value, the suffix
`endptr` points at, and whether any digit was consumed.  When no digit is
consumed `strtol` stores the original pointer in `endptr` and returns 0. -/
def strtolRun (s : List Char) : Int × List Char × Bool :=
  let st := signSplit (skipWs s)
  let vr := digitsLoop 0 st.2
  if vr.2 = st.2 then (0, s, false)
  else (clampLong (st.1 * vr.1), vr.2, true)

/-- Modelled from the spec side of claim C4 only (used to state the
amended claim, never by the operations): a string parses fully as an
integer when it is optional whitespace, an optional sign, then one or more
decimal digits reaching the end of the string; the value is the signed
digit value. -/
def readIntFully (l : List Char) : Option Int :=
  let st := signSplit (skipWs l)
  if st.2 = [] then none
  else if st.2.all Char.isDigit then
    some (st.1 * st.2.foldl (fun a c => 10 * a + ((c.toNat : Int) - 48)) 0)
  else none

/-- The Login query document of `wincc_connect`. -/
def loginQuery : String :=
  "mutation Login($username: String!, $password: String!) \x7b login(username: $username, password: $password) \x7b token expires user \x7b name \x7d error \x7b code description \x7d \x7d \x7d"

/-- The variables JSON built by `wincc_connect` from the stored
credentials. -/
def loginVariables (c : WinccClient) : String :=
  "\x7b\"username\":\"" ++ escape_json_string c.username ++ "\",\"password\":\"" ++
    escape_json_string c.password ++ "\"\x7d"

/-- The request `wincc_connect` hands to the transport. -/
def loginRequest (c : WinccClient) : GqlRequest :=
  { query := loginQuery, vars := some (loginVariables c) }

/-- The `CONNECTION_ERROR` value `wincc_connect` builds when the transport
returns nothing. -/
def connectConnectionError : WError :=
  { error_code := "CONNECTION_ERROR", description := "Failed to connect to server" }

/-- The `PARSE_ERROR` value built for an unparseable response body. -/
def parseError : WError :=
  { error_code := "PARSE_ERROR", description := "Invalid JSON response" }

/-- The error value `wincc_connect` builds from a `login.error` object
(`UNKNOWN_ERROR` placeholders for missing fields). -/
def loginErrorOf (error_obj : Json) : WError :=
  { error_code :=
      ((cJSON_GetObjectItem (some error_obj) "code").bind cJSON_valuestring).getD "UNKNOWN_ERROR"
    description :=
      ((cJSON_GetObjectItem (some error_obj) "description").bind cJSON_valuestring).getD
        "Unknown error" }

/-- `wincc_connect` (src/c/src/wincc_unified.c, lines 73-169).  Sends the
Login mutation; on transport failure or parse failure returns the
corresponding error and leaves the client untouched; a `login.error`
member (even a JSON-null one, which cJSON still returns) yields a server
error; a string token is stored, doubles as the session id, and an
`Authorization: Bearer <token>` header is appended (curl_slist_append
appends, it never replaces).  A response with no error member and no
string token returns success (NULL) without touching the client. -/
def wincc_connect (exec : GqlRequest → Option String) (parse : String → Option Json)
    (c : WinccClient) : Option WError × WinccClient × List GqlRequest :=
  let req := loginRequest c
  match exec req with
  | none => (some connectConnectionError, c, [req])
  | some body =>
    match parse body with
    | none => (some parseError, c, [req])
    | some json =>
      let login := cJSON_GetObjectItem (cJSON_GetObjectItem (some json) "data") "login"
      match cJSON_GetObjectItem login "error" with
      | some error_obj => (some (loginErrorOf error_obj), c, [req])
      | none =>
        match (cJSON_GetObjectItem login "token").bind cJSON_valuestring with
        | some tok =>
            (none,
             { c with
                token := some tok
                session_id := some tok
                headers := c.headers ++ [("Authorization", "Bearer " ++ tok)] },
             [req])
        | none => (none, c, [req])

/-- The Logout mutation document. -/
def logoutQuery : String := "mutation \x7b logout(allSessions: false) \x7d"

/-- `wincc_disconnect` (lines 171-185): a no-op without a token; otherwise
it fires the Logout mutation, ignores the response entirely (best-effort),
and clears token and session id unconditionally.  The function is `void`
in C: it has no error channel at all. -/
def wincc_disconnect (exec : GqlRequest → Option String) (c : WinccClient) :
    WinccClient × List GqlRequest :=
  match c.token with
  | none => (c, [])
  | some _ =>
    let req : GqlRequest := { query := logoutQuery, vars := none }
    let _ := exec req
    ({ c with token := none, session_id := none }, [req])

/-- The TagValues query document of `wincc_read_tags`. -/
def readTagsQuery : String :=
  "query TagValues($names: [String!]!) \x7b tagValues(names: $names) \x7b name value \x7b value timestamp quality \x7b quality subStatus \x7d \x7d error \x7b code description \x7d \x7d \x7d"

/-- The `tags_array` string `wincc_read_tags` builds: each name is escaped
and wrapped in literal backslash-quote pairs (the array is being embedded
inside the query string of the outer envelope, hence the double
escaping). -/
def readTagsArrayStr (names : List String) : String :=
  "[" ++
    String.intercalate ","
      (names.map (fun n => "\\\"" ++ escape_json_string n ++ "\\\"")) ++ "]"

/-- The request `wincc_read_tags` hands to the transport. -/
def readTagsRequest (names : List String) : GqlRequest :=
  { query := readTagsQuery, vars := some ("\x7b\"names\":" ++ readTagsArrayStr names ++ "\x7d") }

/-- One entry of `wincc_tag_results_t` (`wincc_tag_result_t`): absent C
pointers are `none`. -/
structure WTagResult where
  name : Option String
  value : Option String
  quality : Option String
  timestamp : Option String
  error : Option WError
deriving DecidableEq, Repr

/-- `wincc_tag_results_t` (count is the list length). -/
structure WTagResults where
  items : List WTagResult
deriving DecidableEq, Repr

/-- The per-item error extraction (`code`/`description` with empty-string
placeholders when the members are missing). -/
def itemErrorOf (e : Json) : WError :=
  { error_code := ((cJSON_GetObjectItem (some e) "code").bind cJSON_valuestring).getD ""
    description := ((cJSON_GetObjectItem (some e) "description").bind cJSON_valuestring).getD "" }

/-- Normalisation of one `value.value` node (lines 267-276): a JSON string
verbatim, a number through `%g`, a boolean as `"true"`/`"false"`; any
other node leaves the field unset. -/
def fmtValue : Json → Option String
  | Json.str s => some s
  | Json.num q => some (fmtPercentG q)
  | Json.bool b => some (if b then "true" else "false")
  | _ => none

/-- The per-element mapping of `wincc_read_tags` (lines 252-295); each
result is computed from its own array element alone. -/
def mapTagItem (item : Json) : WTagResult :=
  let value_obj := cJSON_GetObjectItem (some item) "value"
  { name := (cJSON_GetObjectItem (some item) "name").bind cJSON_valuestring
    value := (value_obj.bind (fun vo => cJSON_GetObjectItem (some vo) "value")).bind fmtValue
    quality :=
      ((value_obj.bind (fun vo => cJSON_GetObjectItem (some vo) "quality")).bind
        (fun qo => cJSON_GetObjectItem (some qo) "quality")).bind cJSON_valuestring
    timestamp :=
      (value_obj.bind (fun vo => cJSON_GetObjectItem (some vo) "timestamp")).bind cJSON_valuestring
    error := (cJSON_GetObjectItem (some item) "error").map itemErrorOf }

/-- `wincc_read_tags` (lines 187-300).  An empty name list is rejected up
front (NULL, nothing sent).  A transport or parse failure also yields
NULL.  Otherwise the `data.tagValues` array drives the result: one mapped
entry per element; a missing/non-array field gives an empty result
list. -/
def wincc_read_tags (exec : GqlRequest → Option String) (parse : String → Option Json)
    (c : WinccClient) (tag_names : List String) : Option WTagResults × List GqlRequest :=
  if tag_names = [] then (none, [])
  else
    let req := readTagsRequest tag_names
    match exec req with
    | none => (none, [req])
    | some body =>
      match parse body with
      | none => (none, [req])
      | some json =>
        match cJSON_GetObjectItem (cJSON_GetObjectItem (some json) "data") "tagValues" with
        | none => (some { items := [] }, [req])
        | some rt => (some { items := (cJSON_children rt).map mapTagItem }, [req])

/-- The WriteTagValues mutation document. -/
def writeTagsQuery : String :=
  "mutation WriteTagValues($input: [TagValueInput]!) \x7b writeTagValues(input: $input) \x7b name error \x7b code description \x7d \x7d \x7d"

/-- One `{name, value}` object of the `wincc_write_tags` input array, with
the same double escaping as the read path. -/
def writeTagObjStr (t : String × String) : String :=
  "\x7b\\\"name\\\":\\\"" ++ escape_json_string t.1 ++ "\\\",\\\"value\\\":\\\"" ++
    escape_json_string t.2 ++ "\\\"\x7d"

/-- The request `wincc_write_tags` hands to the transport. -/
def writeTagsRequest (tags : List (String × String)) : GqlRequest :=
  { query := writeTagsQuery
    vars := some ("\x7b\"input\":[" ++ String.intercalate "," (tags.map writeTagObjStr) ++ "]\x7d") }

/-- One entry of `wincc_write_results_t`. -/
structure WWriteResult where
  name : Option String
  error : Option WError
deriving DecidableEq, Repr

/-- `wincc_write_results_t`. -/
structure WWriteResults where
  items : List WWriteResult
deriving DecidableEq, Repr

/-- The per-element mapping of `wincc_write_tags` (lines 363-380). -/
def mapWriteItem (item : Json) : WWriteResult :=
  { name := (cJSON_GetObjectItem (some item) "name").bind cJSON_valuestring
    error := (cJSON_GetObjectItem (some item) "error").map itemErrorOf }

/-- `wincc_write_tags` (lines 302-385): same shape as the read path. -/
def wincc_write_tags (exec : GqlRequest → Option String) (parse : String → Option Json)
    (c : WinccClient) (tags : List (String × String)) : Option WWriteResults × List GqlRequest :=
  if tags = [] then (none, [])
  else
    let req := writeTagsRequest tags
    match exec req with
    | none => (none, [req])
    | some body =>
      match parse body with
      | none => (none, [req])
      | some json =>
        match cJSON_GetObjectItem (cJSON_GetObjectItem (some json) "data") "writeTagValues" with
        | none => (some { items := [] }, [req])
        | some wt => (some { items := (cJSON_children wt).map mapWriteItem }, [req])

/-- The Browse query document. -/
def browseQuery : String :=
  "query Browse($nameFilters: [String]) \x7b browse(nameFilters: $nameFilters) \x7b name displayName objectType dataType \x7d \x7d"

/-- The request `wincc_browse` hands to the transport (NULL path means an
empty filter list). -/
def browseRequest (path : Option String) : GqlRequest :=
  { query := browseQuery
    vars :=
      some
        (match path with
         | some p => "\x7b\"nameFilters\":[\"" ++ escape_json_string p ++ "\"]\x7d"
         | none => "\x7b\"nameFilters\":[]\x7d") }

/-- One entry of `wincc_browse_results_t` (`wincc_browse_item_t`). -/
structure WBrowseItem where
  name : Option String
  type : Option String
  address : Option String
  children_count : Nat
deriving DecidableEq, Repr

/-- `wincc_browse_results_t` (its `error` field is never set by this
code). -/
structure WBrowseResults where
  items : List WBrowseItem
  error : Option WError
deriving DecidableEq, Repr

/-- The per-element mapping of `wincc_browse` (lines 442-455): the name is
reused as the address, and the child count is hard-wired to zero ("Not
available in new API"). -/
def mapBrowseItem (item : Json) : WBrowseItem :=
  { name := (cJSON_GetObjectItem (some item) "name").bind cJSON_valuestring
    type := (cJSON_GetObjectItem (some item) "objectType").bind cJSON_valuestring
    address := (cJSON_GetObjectItem (some item) "name").bind cJSON_valuestring
    children_count := 0 }

/-- `wincc_browse` (lines 387-460). -/
def wincc_browse (exec : GqlRequest → Option String) (parse : String → Option Json)
    (c : WinccClient) (path : Option String) : Option WBrowseResults × List GqlRequest :=
  let req := browseRequest path
  match exec req with
  | none => (none, [req])
  | some body =>
    match parse body with
    | none => (none, [req])
    | some json =>
      match cJSON_GetObjectItem (cJSON_GetObjectItem (some json) "data") "browse" with
      | none => (some { items := [], error := none }, [req])
      | some b => (some { items := (cJSON_children b).map mapBrowseItem, error := none }, [req])

/-- The activeAlarms query document. -/
def alarmsQuery : String :=
  "query \x7b activeAlarms \x7b name instanceID state eventText alarmClassName raiseTime clearTime acknowledgmentTime \x7d \x7d"

/-- One entry of `wincc_alarms_t` (`wincc_alarm_t`; the timestamp fields
are never filled by this code and are omitted). -/
structure WAlarm where
  id : Option String
  state : Option String
  name : Option String
  text : Option String
  class_name : Option String
  error : Option WError
deriving DecidableEq, Repr

/-- `wincc_alarms_t`. -/
structure WAlarms where
  items : List WAlarm
deriving DecidableEq, Repr

/-- The per-element mapping of `wincc_get_active_alarms` (lines 508-530):
the numeric instance id is rendered with `%d` of `valueint`. -/
def mapAlarmItem (item : Json) : WAlarm :=
  { id := (cJSON_GetObjectItem (some item) "instanceID").map (fun j => toString (cJSON_valueint j))
    state := (cJSON_GetObjectItem (some item) "state").bind cJSON_valuestring
    name := (cJSON_GetObjectItem (some item) "name").bind cJSON_valuestring
    text :=
      ((cJSON_GetObjectItem (some item) "eventText").bind
        (fun et => (cJSON_children et).head?)).bind cJSON_valuestring
    class_name := (cJSON_GetObjectItem (some item) "alarmClassName").bind cJSON_valuestring
    error := none }

/-- `wincc_get_active_alarms` (lines 462-535). -/
def wincc_get_active_alarms (exec : GqlRequest → Option String) (parse : String → Option Json)
    (c : WinccClient) : Option WAlarms × List GqlRequest :=
  let req : GqlRequest := { query := alarmsQuery, vars := none }
  match exec req with
  | none => (none, [req])
  | some body =>
    match parse body with
    | none => (none, [req])
    | some json =>
      match cJSON_GetObjectItem (cJSON_GetObjectItem (some json) "data") "activeAlarms" with
      | none => (some { items := [] }, [req])
      | some a => (some { items := (cJSON_children a).map mapAlarmItem }, [req])

/-- The AcknowledgeAlarms mutation document. -/
def ackQuery : String :=
  "mutation AcknowledgeAlarms($input: [AlarmIdentifierInput]!) \x7b acknowledgeAlarms(input: $input) \x7b alarmName alarmInstanceID error \x7b code description \x7d \x7d \x7d"

/-- The numeric-instance-id variables payload of
`wincc_acknowledge_alarm` (`%ld` of the `strtol` result). -/
def numericAckPayload (v : Int) : String :=
  "\x7b\"input\":[\x7b\"name\":\"\",\"instanceID\":" ++ toString v ++ "\x7d]\x7d"

/-- The name-mode variables payload of `wincc_acknowledge_alarm`. -/
def nameAckPayload (s : String) : String :=
  "\x7b\"input\":[\x7b\"name\":\"" ++ escape_json_string s ++ "\",\"instanceID\":0\x7d]\x7d"

/-- The variables string built by `wincc_acknowledge_alarm`
(lines 544-559): numeric mode exactly when `strtol` left `endptr` at the
terminating NUL. -/
def ackVariables (alarm_id : String) : String :=
  let r := strtolRun alarm_id.data
  if r.2.1 = [] then numericAckPayload r.1 else nameAckPayload alarm_id

/-- The request `wincc_acknowledge_alarm` hands to the transport. -/
def ackRequest (alarm_id : String) : GqlRequest :=
  { query := ackQuery, vars := some (ackVariables alarm_id) }

/-- The `CONNECTION_ERROR` value of `wincc_acknowledge_alarm`. -/
def ackConnectionError : WError :=
  { error_code := "CONNECTION_ERROR", description := "Failed to execute request" }

/-- The error value built from the first result's `error` member
(`UNKNOWN_ERROR` placeholders). -/
def ackErrorOf (error_obj : Json) : WError :=
  { error_code :=
      ((cJSON_GetObjectItem (some error_obj) "code").bind cJSON_valuestring).getD "UNKNOWN_ERROR"
    description :=
      ((cJSON_GetObjectItem (some error_obj) "description").bind cJSON_valuestring).getD
        "Unknown error" }

/-- `wincc_acknowledge_alarm` (lines 537-600): after the round trip, only
the first element of `data.acknowledgeAlarms` is inspected; its `error`
member (if any) becomes the returned error, otherwise NULL (success). -/
def wincc_acknowledge_alarm (exec : GqlRequest → Option String) (parse : String → Option Json)
    (c : WinccClient) (alarm_id : String) : Option WError × List GqlRequest :=
  let req := ackRequest alarm_id
  match exec req with
  | none => (some ackConnectionError, [req])
  | some body =>
    match parse body with
    | none => (some parseError, [req])
    | some json =>
      match cJSON_GetObjectItem (cJSON_GetObjectItem (some json) "data") "acknowledgeAlarms" with
      | none => (none, [req])
      | some a =>
        match cJSON_children a with
        | [] => (none, [req])
        | first :: _ =>
          match cJSON_GetObjectItem (some first) "error" with
          | some error_obj => (some (ackErrorOf error_obj), [req])
          | none => (none, [req])

/-- A fresh client handle used by the concrete test scenarios. -/
def testClient : WinccClient := wincc_client_new "http://srv" "user" "pw"

/-- Concrete server response for the C1 scenario: one name was requested,
but the `tagValues` array carries two elements and its first element has
both a populated value object and a populated error object. -/
def cx1Json : Json :=
  Json.obj [("data", Json.obj [("tagValues", Json.arr
    [Json.obj [("name", Json.str "A"),
               ("value", Json.obj [("value", Json.str "5")]),
               ("error", Json.obj [("code", Json.str "E"), ("description", Json.str "bad")])],
     Json.obj [("name", Json.str "B"),
               ("value", Json.obj [("value", Json.str "7")])]])])]

/-- One well-formed `tagValues` element (numeric value 3.0). -/
def w1Item : Json :=
  Json.obj [("name", Json.str "A"), ("value", Json.obj [("value", Json.num 3)])]

/-- A well-formed read-tags response holding `w1Item` alone. -/
def w1Json : Json :=
  Json.obj [("data", Json.obj [("tagValues", Json.arr [w1Item])])]

/-- A `tagValues` element whose value is a string. -/
def c3wItem : Json :=
  Json.obj [("name", Json.str "T"), ("value", Json.obj [("value", Json.str "on")])]

/-- A login response carrying a token and no error member. -/
def c7wJson : Json :=
  Json.obj [("data", Json.obj [("login", Json.obj [("token", Json.str "tok123")])])]

/-- One browse element. -/
def c9Item : Json :=
  Json.obj [("name", Json.str "HMI_Tag_1"), ("objectType", Json.str "TAG")]

/-- A browse response holding `c9Item` alone. -/
def c9Json : Json :=
  Json.obj [("data", Json.obj [("browse", Json.arr [c9Item])])]

/-- An acknowledgeAlarms response whose first element carries no error
member while a later element does. -/
def c10wJson : Json :=
  Json.obj [("data", Json.obj [("acknowledgeAlarms", Json.arr
    [Json.obj [("alarmName", Json.str "A")],
     Json.obj [("alarmName", Json.str "B"),
               ("error", Json.obj [("code", Json.str "X"), ("description", Json.str "boom")])]])])]

theorem escapeChar_other (c : Char) (h1 : c ≠ '"') (h2 : c ≠ '\\') (h3 : c ≠ '\n')
    (h4 : c ≠ '\r') (h5 : c ≠ '\t') : escapeChar c = [c] := by
  simp [escapeChar, h1, h2, h3, h4, h5]

theorem jsonUnescape_cons_other (c : Char) (r : List Char) (h : c ≠ '\\') :
    jsonUnescapeList (c :: r) = (jsonUnescapeList r).map (fun t => c :: t) := by
  rw [jsonUnescapeList.eq_def]
  simp [h]

theorem jsonUnescape_esc (e d : Char) (r : List Char) (hu : e ≠ 'u')
    (hd : unescSimple e = some d) :
    jsonUnescapeList ('\\' :: e :: r) = (jsonUnescapeList r).map (fun t => d :: t) := by
  rw [jsonUnescapeList.eq_def]
  simp [hu, hd]

theorem jsonUnescape_escape_list (l : List Char) :
    jsonUnescapeList (escape_json_string_list l) = some l := by
  induction l with
  | nil =>
    rw [show escape_json_string_list [] = [] from rfl, jsonUnescapeList.eq_def]
  | cons c t ih =>
    have hstep : escape_json_string_list (c :: t) = escapeChar c ++ escape_json_string_list t := by
      simp [escape_json_string_list]
    rw [hstep]
    by_cases h1 : c = '"'
    · subst h1
      rw [show escapeChar '"' = ['\\', '"'] from rfl, List.cons_append, List.cons_append,
        List.nil_append, jsonUnescape_esc '"' '"' _ (by decide) (by decide), ih]
      rfl
    by_cases h2 : c = '\\'
    · subst h2
      rw [show escapeChar '\\' = ['\\', '\\'] from rfl, List.cons_append, List.cons_append,
        List.nil_append, jsonUnescape_esc '\\' '\\' _ (by decide) (by decide), ih]
      rfl
    by_cases h3 : c = '\n'
    · subst h3
      rw [show escapeChar '\n' = ['\\', 'n'] from rfl, List.cons_append, List.cons_append,
        List.nil_append, jsonUnescape_esc 'n' '\n' _ (by decide) (by decide), ih]
      rfl
    by_cases h4 : c = '\r'
    · subst h4
      rw [show escapeChar '\r' = ['\\', 'r'] from rfl, List.cons_append, List.cons_append,
        List.nil_append, jsonUnescape_esc 'r' '\r' _ (by decide) (by decide), ih]
      rfl
    by_cases h5 : c = '\t'
    · subst h5
      rw [show escapeChar '\t' = ['\\', 't'] from rfl, List.cons_append, List.cons_append,
        List.nil_append, jsonUnescape_esc 't' '\t' _ (by decide) (by decide), ih]
      rfl
    · rw [escapeChar_other c h1 h2 h3 h4 h5, List.cons_append, List.nil_append,
        jsonUnescape_cons_other c _ h2, ih]
      rfl

/-- C2: `escape_json_string` maps each of `"`- `\` - newline - carriage
return - tab to its two-character backslash escape, leaves every other
character unchanged, and standard JSON string-escape decoding
(`jsonUnescapeList`, the RFC 8259 escape table) of the escaped output
recovers the original string exactly, for every input string. -/
theorem C2_escape_roundtrip :
    (escapeChar '"' = ['\\', '"'] ∧ escapeChar '\\' = ['\\', '\\'] ∧
      escapeChar '\n' = ['\\', 'n'] ∧ escapeChar '\r' = ['\\', 'r'] ∧
      escapeChar '\t' = ['\\', 't']) ∧
    (∀ c : Char, c ≠ '"' → c ≠ '\\' → c ≠ '\n' → c ≠ '\r' → c ≠ '\t' → escapeChar c = [c]) ∧
    ∀ s : String, jsonUnescapeList (escape_json_string s).data = some s.data :=
  ⟨⟨rfl, rfl, rfl, rfl, rfl⟩, escapeChar_other,
    fun s => jsonUnescape_escape_list s.data⟩

/-- C2 witness: the theorem applied at the character `x` (not special, so
kept as itself) and at a concrete string containing all five special
characters. -/
theorem C2_witness :
    escapeChar 'x' = ['x'] ∧
    jsonUnescapeList (escape_json_string "a\"b\\c\nd\re\tf").data = some "a\"b\\c\nd\re\tf".data :=
  ⟨C2_escape_roundtrip.2.1 'x' (by decide) (by decide) (by decide) (by decide) (by decide),
    C2_escape_roundtrip.2.2 "a\"b\\c\nd\re\tf"⟩

/-- C1 counterexample: with one name requested (`["A"]`), a syntactically
valid server response whose `tagValues` array has two elements — the
first carrying both a value object and an error object — is mapped to two
results, and the first result has `value` and `error` populated at the
same time.  This refutes both "exactly one result per name requested" and
"no returned result has both a populated value and a populated error":
the count follows the server array, and value and error are extracted
independently. -/
theorem C1_counterexample :
    (wincc_read_tags (fun _ => some "r") (fun _ => some cx1Json) testClient ["A"]).1 =
      some { items := [ { name := some "A", value := some "5", quality := none,
                          timestamp := none, error := some ⟨"E", "bad"⟩ },
                        { name := some "B", value := some "7", quality := none,
                          timestamp := none, error := none } ] } := by rfl

/-- C1 (amended): when the parsed response carries a `tagValues` array,
`wincc_read_tags` returns exactly one result per element of that array,
in the server's order, each result being the per-item mapping of its own
element alone (so a per-item error on one element cannot affect or stop
the mapping of sibling elements; value and error are extracted
independently and may both be populated). -/
theorem C1_read_tags_per_item (exec : GqlRequest → Option String)
    (parse : String → Option Json) (c : WinccClient) (names : List String) (body : String)
    (json : Json) (xs : List Json)
    (hne : names ≠ [])
    (hexec : exec (readTagsRequest names) = some body)
    (hparse : parse body = some json)
    (hxs : cJSON_GetObjectItem (cJSON_GetObjectItem (some json) "data") "tagValues" =
      some (Json.arr xs)) :
    (wincc_read_tags exec parse c names).1 = some { items := xs.map mapTagItem } ∧
    ∀ r, (wincc_read_tags exec parse c names).1 = some r →
      r.items.length = xs.length ∧ ∀ i : Nat, r.items.get? i = (xs.get? i).map mapTagItem := by
  have hmain : (wincc_read_tags exec parse c names).1 = some { items := xs.map mapTagItem } := by
    simp [wincc_read_tags, hne, hexec, hparse, hxs, cJSON_children]
  refine ⟨hmain, ?_⟩
  intro r hr
  rw [hmain] at hr
  injection hr with hr
  subst hr
  constructor
  · simp
  · intro i
    simp [List.get?_eq_getElem?, List.getElem?_map]

/-- C1 witness: the per-item mapping theorem instantiated on a concrete
one-element response. -/
theorem C1_witness :
    (wincc_read_tags (fun _ => some "b") (fun _ => some w1Json) testClient ["A"]).1 =
      some { items := [w1Item].map mapTagItem } :=
  (C1_read_tags_per_item (fun _ => some "b") (fun _ => some w1Json) testClient ["A"] "b"
    w1Json [w1Item] (by decide) rfl rfl rfl).1

/-- C3 counterexample: the JSON number 1234567 (an exactly representable
double) arrives as a tag value and is mapped through `%g` to the string
"1.23457e+06": the default six-significant-digit precision of `%g`
discards digits, so the normalization does lose precision unnecessarily
(a lossless rendering "1234567" exists). -/
theorem C3_counterexample :
    (wincc_read_tags (fun _ => some "r")
        (fun _ => some (Json.obj [("data", Json.obj [("tagValues", Json.arr
          [Json.obj [("name", Json.str "T"),
                     ("value", Json.obj [("value", Json.num 1234567)])]])])]))
        testClient ["T"]).1 =
      some { items := [{ name := some "T", value := some "1.23457e+06", quality := none,
                         timestamp := none, error := none }] } := by rfl

/-- C3 (amended): in the response mapping of `wincc_read_tags`, a tag
value arriving as a JSON string is kept verbatim, a JSON boolean becomes
the literal string `"true"`/`"false"`, and a JSON number is formatted
with C `%g` at its default six significant digits — so `3.0` normalizes
to `"3"`, but values with more than six significant digits are rounded
(e.g. 1234567 becomes `"1.23457e+06"`); the populated value field is
always a string. -/
theorem C3_value_normalization :
    (∀ s : String, fmtValue (Json.str s) = some s) ∧
    (∀ b : Bool, fmtValue (Json.bool b) = some (if b then "true" else "false")) ∧
    (∀ q : ℚ, fmtValue (Json.num q) = some (fmtPercentG q)) ∧
    fmtPercentG 3 = "3" ∧
    fmtPercentG 1234567 = "1.23457e+06" ∧
    (∀ item vo v, cJSON_GetObjectItem (some item) "value" = some vo →
      cJSON_GetObjectItem (some vo) "value" = some v →
      (mapTagItem item).value = fmtValue v) := by
  refine ⟨fun s => rfl, fun b => rfl, fun q => rfl, by rfl, by rfl, ?_⟩
  intro item vo v h1 h2
  simp [mapTagItem, h1, h2]

/-- C3 witness: the normalization applied to a concrete item whose value
is the string "on". -/
theorem C3_witness : (mapTagItem c3wItem).value = fmtValue (Json.str "on") :=
  C3_value_normalization.2.2.2.2.2 c3wItem (Json.obj [("value", Json.str "on")])
    (Json.str "on") rfl rfl

theorem digitsLoop_snd (l : List Char) :
    ∀ acc : Int, (digitsLoop acc l).2 = l.dropWhile Char.isDigit := by
  induction l with
  | nil => intro acc; rfl
  | cons c r ih =>
    intro acc
    by_cases h : c.isDigit
    · simp [digitsLoop, h, List.dropWhile_cons, ih]
    · simp [digitsLoop, h, List.dropWhile_cons]

theorem digitsLoop_all (l : List Char) (h : l.all Char.isDigit = true) :
    ∀ acc : Int, digitsLoop acc l =
      (l.foldl (fun a c => 10 * a + ((c.toNat : Int) - 48)) acc, []) := by
  induction l with
  | nil => intro acc; rfl
  | cons c r ih =>
    intro acc
    simp only [List.all_cons, Bool.and_eq_true] at h
    simp [digitsLoop, h.1, List.foldl_cons, ih h.2]

theorem sdata_ne_nil_of_sign_tail (s : String)
    (h : (signSplit (skipWs s.data)).2 ≠ []) : s.data ≠ [] := by
  intro he
  rw [he] at h
  exact h rfl

/-- C4 (amended): for every identifier string passed to
`wincc_acknowledge_alarm`: if the string parses fully as an integer
(optional leading whitespace, an optional sign, then one or more decimal
digits up to the end of the string), the constructed variables payload
uses numeric-instance-id mode with that integer saturated to the signed
64-bit `long` range (name empty); for any other string the payload is
exactly the name-mode payload (name set to the escaped identifier,
instanceID 0) — for the empty string `strtol` also takes the numeric
branch with value 0, but the payload it produces coincides with the
name-mode payload. -/
theorem C4_identifier_modes (s : String) :
    (∀ n : Int, readIntFully s.data = some n → ackVariables s = numericAckPayload (clampLong n)) ∧
    (readIntFully s.data = none → ackVariables s = nameAckPayload s) := by
  constructor
  · intro n hn
    simp only [readIntFully] at hn
    split_ifs at hn with h1 h2
    injection hn with hn
    have hd := digitsLoop_all (signSplit (skipWs s.data)).2 h2 0
    simp only [ackVariables, strtolRun, hd]
    rw [if_neg (show ¬(([] : List Char) = (signSplit (skipWs s.data)).2) from
      fun he => h1 he.symm)]
    simp [hn]
  · intro hn
    simp only [readIntFully] at hn
    split_ifs at hn with h1 h2
    · -- nothing after the sign: strtol consumes no digit, endptr = s
      have hd : digitsLoop 0 (signSplit (skipWs s.data)).2 = (0, []) := by
        rw [h1]; rfl
      by_cases hs : s.data = []
      · rcases s with ⟨l⟩
        simp only [] at hs
        subst hs
        rfl
      · simp only [ackVariables, strtolRun, hd]
        rw [if_pos h1.symm]
        dsimp only
        rw [if_neg hs]
    · -- a non-digit inside: either no digit is consumed (endptr = s ≠ [])
      -- or digits stop early (endptr at the offender)
      have hsnd := digitsLoop_snd (signSplit (skipWs s.data)).2 0
      have hdrop : (signSplit (skipWs s.data)).2.dropWhile Char.isDigit ≠ [] := by
        intro hnil
        apply h2
        rw [List.all_eq_true]
        intro x hx
        by_contra hxd
        have := List.dropWhile_eq_nil_iff.mp hnil
        exact hxd (this x hx)
      by_cases hw : (digitsLoop 0 (signSplit (skipWs s.data)).2).2 =
          (signSplit (skipWs s.data)).2
      · have hs : s.data ≠ [] := sdata_ne_nil_of_sign_tail s h1
        simp only [ackVariables, strtolRun]
        rw [if_pos hw]
        dsimp only
        rw [if_neg hs]
      · simp only [ackVariables, strtolRun]
        rw [if_neg hw]
        dsimp only
        rw [hsnd, if_neg hdrop]

/-- C4 counterexample: the string "9223372036854775808" (2^63) parses
fully as an integer, but `strtol` saturates at `LONG_MAX`, so the payload
is numeric-mode with 9223372036854775807 — neither numeric mode with the
parsed integer itself nor name mode, refuting "instanceID set to that
integer". -/
theorem C4_counterexample :
    ackVariables "9223372036854775808" = numericAckPayload 9223372036854775807 ∧
    ackVariables "9223372036854775808" ≠ numericAckPayload 9223372036854775808 ∧
    ackVariables "9223372036854775808" ≠ nameAckPayload "9223372036854775808" :=
  ⟨by rfl, by decide, by decide⟩

/-- C4 witness: both modes exercised — "42" yields the numeric payload,
"Tag_X" the name payload. -/
theorem C4_witness :
    ackVariables "42" = numericAckPayload (clampLong 42) ∧
    ackVariables "Tag_X" = nameAckPayload "Tag_X" :=
  ⟨(C4_identifier_modes "42").1 42 (by decide), (C4_identifier_modes "Tag_X").2 (by decide)⟩

/-- C5: calling `wincc_read_tags` or `wincc_write_tags` with an empty
argument list is rejected up front — the caller gets NULL back and no
request is built or handed to the transport (the request log stays
empty), whatever the transport and parser would do. -/
theorem C5_empty_rejected (exec : GqlRequest → Option String) (parse : String → Option Json)
    (c : WinccClient) :
    wincc_read_tags exec parse c [] = (none, []) ∧
    wincc_write_tags exec parse c [] = (none, []) := ⟨rfl, rfl⟩

/-- C6 counterexample: with a response body that is not valid JSON,
`wincc_read_tags` returns NULL — its return type carries no error kind at
all — rather than an error value of kind PARSE_ERROR, so the claim that
every operation returns a ParseError error value is false. -/
theorem C6_counterexample :
    (wincc_read_tags (fun _ => some "not json") (fun _ => none) testClient ["A"]).1 = none := by
  rfl

/-- C6 (amended): when the response body is not valid JSON, no operation
throws or crashes: `wincc_connect` and `wincc_acknowledge_alarm` return a
PARSE_ERROR error value, while the collection-returning operations
(`wincc_read_tags`, `wincc_write_tags`, `wincc_browse`,
`wincc_get_active_alarms`) signal the failure by returning a NULL result
carrying no error kind. -/
theorem C6_parse_failure (exec : GqlRequest → Option String) (parse : String → Option Json)
    (c : WinccClient) (names : List String) (pairs : List (String × String))
    (path : Option String) (aid : String)
    (hx : ∀ r, ∃ b, exec r = some b) (hp : ∀ s, parse s = none) :
    (wincc_connect exec parse c).1 = some parseError ∧
    (names ≠ [] → (wincc_read_tags exec parse c names).1 = none) ∧
    (pairs ≠ [] → (wincc_write_tags exec parse c pairs).1 = none) ∧
    (wincc_browse exec parse c path).1 = none ∧
    (wincc_get_active_alarms exec parse c).1 = none ∧
    (wincc_acknowledge_alarm exec parse c aid).1 = some parseError := by
  obtain ⟨b1, h1⟩ := hx (loginRequest c)
  obtain ⟨b2, h2⟩ := hx (readTagsRequest names)
  obtain ⟨b3, h3⟩ := hx (writeTagsRequest pairs)
  obtain ⟨b4, h4⟩ := hx (browseRequest path)
  obtain ⟨b5, h5⟩ := hx { query := alarmsQuery, vars := none }
  obtain ⟨b6, h6⟩ := hx (ackRequest aid)
  refine ⟨?_, fun hne => ?_, fun hne => ?_, ?_, ?_, ?_⟩
  · simp [wincc_connect, h1, hp]
  · simp [wincc_read_tags, hne, h2, hp]
  · simp [wincc_write_tags, hne, h3, hp]
  · simp [wincc_browse, h4, hp]
  · simp [wincc_get_active_alarms, h5, hp]
  · simp [wincc_acknowledge_alarm, h6, hp]

/-- C6 witness: the amended theorem at a concrete always-failing parser. -/
theorem C6_witness :
    (wincc_connect (fun _ => some "x") (fun _ => none) testClient).1 = some parseError ∧
    (wincc_read_tags (fun _ => some "x") (fun _ => none) testClient ["A"]).1 = none :=
  ⟨(C6_parse_failure (fun _ => some "x") (fun _ => none) testClient ["A"] [("a", "b")] none "42"
      (fun _ => ⟨"x", rfl⟩) (fun _ => rfl)).1,
   (C6_parse_failure (fun _ => some "x") (fun _ => none) testClient ["A"] [("a", "b")] none "42"
      (fun _ => ⟨"x", rfl⟩) (fun _ => rfl)).2.1 (by decide)⟩

/-- C7 counterexample: a syntactically valid response with no login error
and no token (here `\x7b\x7d`) makes `wincc_connect` return success (NULL)
while storing no token and no session id and registering no Authorization
header — the client record is exactly the fresh one — so "on success,
stores the token and registers an Authorization header" fails. -/
theorem C7_counterexample :
    (wincc_connect (fun _ => some "\x7b\x7d") (fun _ => some (Json.obj [])) testClient).1 =
        none ∧
    (wincc_connect (fun _ => some "\x7b\x7d") (fun _ => some (Json.obj [])) testClient).2.1 =
        testClient := ⟨rfl, rfl⟩

/-- C7 (amended): `wincc_connect` on a transport failure returns
CONNECTION_ERROR, on a parse failure PARSE_ERROR, and on a response with
a `login.error` member the server-reported error — in all three cases
the client record is left unchanged, so a Disconnected client stays
Disconnected with token and session id unset.  When it succeeds and the
response carries a string token, the token is stored, doubles as the
session id, and an `Authorization: Bearer <token>` header is registered.
(A no-error response without a token also returns success while storing
nothing — see the counterexample.) -/
theorem C7_connect_session (exec : GqlRequest → Option String) (parse : String → Option Json)
    (c : WinccClient) :
    (exec (loginRequest c) = none →
      wincc_connect exec parse c = (some connectConnectionError, c, [loginRequest c])) ∧
    (∀ body, exec (loginRequest c) = some body → parse body = none →
      wincc_connect exec parse c = (some parseError, c, [loginRequest c])) ∧
    (∀ body json eobj, exec (loginRequest c) = some body → parse body = some json →
      cJSON_GetObjectItem (cJSON_GetObjectItem (cJSON_GetObjectItem (some json) "data") "login")
        "error" = some eobj →
      wincc_connect exec parse c = (some (loginErrorOf eobj), c, [loginRequest c])) ∧
    (∀ body json tok, exec (loginRequest c) = some body → parse body = some json →
      cJSON_GetObjectItem (cJSON_GetObjectItem (cJSON_GetObjectItem (some json) "data") "login")
        "error" = none →
      (cJSON_GetObjectItem (cJSON_GetObjectItem (cJSON_GetObjectItem (some json) "data") "login")
        "token").bind cJSON_valuestring = some tok →
      (wincc_connect exec parse c).1 = none ∧
      (wincc_connect exec parse c).2.1.token = some tok ∧
      (wincc_connect exec parse c).2.1.session_id = some tok ∧
      ("Authorization", "Bearer " ++ tok) ∈ (wincc_connect exec parse c).2.1.headers) := by
  refine ⟨?_, ?_, ?_, ?_⟩
  · intro he
    simp [wincc_connect, he]
  · intro body he hp
    simp [wincc_connect, he, hp]
  · intro body json eobj he hp herr
    simp [wincc_connect, he, hp, herr]
  · intro body json tok he hp herr htok
    simp [wincc_connect, he, hp, herr, htok]

/-- C7 witness: the success branch at a concrete login response carrying
the token "tok123". -/
theorem C7_witness :
    (wincc_connect (fun _ => some "b") (fun _ => some c7wJson) testClient).1 = none ∧
    (wincc_connect (fun _ => some "b") (fun _ => some c7wJson) testClient).2.1.token =
      some "tok123" ∧
    (wincc_connect (fun _ => some "b") (fun _ => some c7wJson) testClient).2.1.session_id =
      some "tok123" ∧
    ("Authorization", "Bearer " ++ "tok123") ∈
      (wincc_connect (fun _ => some "b") (fun _ => some c7wJson) testClient).2.1.headers :=
  (C7_connect_session (fun _ => some "b") (fun _ => some c7wJson) testClient).2.2.2 "b" c7wJson
    "tok123" rfl rfl (by rfl) (by rfl)

/-- C8: `wincc_disconnect` clears the token and session id
unconditionally, ignores the transport outcome entirely (the result is
the same for every transport, so a logout transport failure is never
surfaced — the function has no error channel), fires exactly one Logout
request when a token is held, is a pure no-op when none is held, and is
idempotent: a second call in a row is a no-op that sends nothing.  The
hypothesis records the reachable-state invariant that the token and the
session id are set and cleared together (`wincc_client_new`, the success
path of `wincc_connect` and `wincc_disconnect` all maintain it), which
"after any sequence of operations" presupposes. -/
theorem C8_disconnect_idempotent (exec exec2 exec3 : GqlRequest → Option String)
    (c : WinccClient) (hcoup : c.token = none → c.session_id = none) :
    (wincc_disconnect exec c).1.token = none ∧
    (wincc_disconnect exec c).1.session_id = none ∧
    wincc_disconnect exec2 (wincc_disconnect exec c).1 = ((wincc_disconnect exec c).1, []) ∧
    (wincc_disconnect exec c).1 = (wincc_disconnect exec3 c).1 ∧
    (c.token = none → wincc_disconnect exec c = (c, [])) ∧
    (∀ t, c.token = some t →
      (wincc_disconnect exec c).2 = [{ query := logoutQuery, vars := none }]) := by
  cases h : c.token with
  | none => simp [wincc_disconnect, h, hcoup h]
  | some t => simp [wincc_disconnect, h]

/-- C8 witness: a client holding a token fires exactly one Logout
request, even when the transport fails. -/
theorem C8_witness :
    (wincc_disconnect (fun _ => none)
        { testClient with token := some "T", session_id := some "T" }).2 =
      [{ query := logoutQuery, vars := none }] :=
  (C8_disconnect_idempotent (fun _ => none) (fun _ => none) (fun _ => none)
    { testClient with token := some "T", session_id := some "T" }
    (by intro h; exact absurd h (by simp))).2.2.2.2.2 "T" rfl

/-- C9: for every successfully parsed browse response, each returned
item's address field equals its name field (the code reuses the `name`
member for both) and its children_count is 0 ("Not available in new
API"), regardless of the server's response content. -/
theorem C9_browse_invariant (exec : GqlRequest → Option String) (parse : String → Option Json)
    (c : WinccClient) (path : Option String) (r : WBrowseResults)
    (hr : (wincc_browse exec parse c path).1 = some r) :
    ∀ it ∈ r.items, it.address = it.name ∧ it.children_count = 0 := by
  intro it hit
  cases hE : exec (browseRequest path) with
  | none => simp [wincc_browse, hE] at hr
  | some body =>
    cases hP : parse body with
    | none => simp [wincc_browse, hE, hP] at hr
    | some json =>
      cases hB : cJSON_GetObjectItem (cJSON_GetObjectItem (some json) "data") "browse" with
      | none =>
        simp [wincc_browse, hE, hP, hB] at hr
        rw [← hr] at hit
        simp at hit
      | some b =>
        simp [wincc_browse, hE, hP, hB] at hr
        rw [← hr] at hit
        simp only [] at hit
        obtain ⟨x, hx, hxe⟩ := List.mem_map.mp hit
        rw [← hxe]
        exact ⟨rfl, rfl⟩

/-- C9 witness: the invariant instantiated on a concrete one-element
browse response. -/
theorem C9_witness :
    (mapBrowseItem c9Item).address = (mapBrowseItem c9Item).name ∧
    (mapBrowseItem c9Item).children_count = 0 :=
  C9_browse_invariant (fun _ => some "b") (fun _ => some c9Json) testClient none
    { items := [mapBrowseItem c9Item], error := none } rfl (mapBrowseItem c9Item) (by simp)

/-- C10: `wincc_acknowledge_alarm` inspects only the first element of the
server's acknowledgeAlarms array: an empty array yields NULL (success);
with a non-empty array the result is an error value iff the first
element carries an error object — formalised as the presence of a member
named `error`, which is exactly cJSON's test (it also fires when the
member's value is JSON null); elements after the first never influence
the result: two responses agreeing on the first element give identical
results. -/
theorem C10_ack_first_element (exec : GqlRequest → Option String)
    (parse parse2 : String → Option Json) (c : WinccClient) (aid : String) (body : String)
    (json json2 : Json)
    (hexec : exec (ackRequest aid) = some body)
    (hparse : parse body = some json) (hparse2 : parse2 body = some json2) :
    (∀ a, cJSON_GetObjectItem (cJSON_GetObjectItem (some json) "data") "acknowledgeAlarms" =
        some a → cJSON_children a = [] →
      (wincc_acknowledge_alarm exec parse c aid).1 = none) ∧
    (∀ a a2 first rest rest2,
      cJSON_GetObjectItem (cJSON_GetObjectItem (some json) "data") "acknowledgeAlarms" = some a →
      cJSON_GetObjectItem (cJSON_GetObjectItem (some json2) "data") "acknowledgeAlarms" =
        some a2 →
      cJSON_children a = first :: rest → cJSON_children a2 = first :: rest2 →
      wincc_acknowledge_alarm exec parse c aid = wincc_acknowledge_alarm exec parse2 c aid) ∧
    (∀ a first rest,
      cJSON_GetObjectItem (cJSON_GetObjectItem (some json) "data") "acknowledgeAlarms" = some a →
      cJSON_children a = first :: rest →
      ((wincc_acknowledge_alarm exec parse c aid).1.isSome ↔
        (cJSON_GetObjectItem (some first) "error").isSome)) := by
  refine ⟨?_, ?_, ?_⟩
  · intro a ha hc
    simp [wincc_acknowledge_alarm, hexec, hparse, ha, hc]
  · intro a a2 first rest rest2 ha ha2 hc hc2
    cases he : cJSON_GetObjectItem (some first) "error" <;>
      simp [wincc_acknowledge_alarm, hexec, hparse, hparse2, ha, ha2, hc, hc2, he]
  · intro a first rest ha hc
    cases he : cJSON_GetObjectItem (some first) "error" <;>
      simp [wincc_acknowledge_alarm, hexec, hparse, ha, hc, he]

/-- C10 witness: on a concrete response whose first element has no error
member while the second element does, the call reports success. -/
theorem C10_witness :
    ((wincc_acknowledge_alarm (fun _ => some "b") (fun _ => some c10wJson)
        testClient "42").1.isSome ↔
      (cJSON_GetObjectItem (some (Json.obj [("alarmName", Json.str "A")])) "error").isSome) :=
  (C10_ack_first_element (fun _ => some "b") (fun _ => some c10wJson) (fun _ => some c10wJson)
      testClient "42" "b" c10wJson c10wJson rfl rfl rfl).2.2
    (Json.arr [Json.obj [("alarmName", Json.str "A")],
      Json.obj [("alarmName", Json.str "B"),
        ("error", Json.obj [("code", Json.str "X"), ("description", Json.str "boom")])]])
    (Json.obj [("alarmName", Json.str "A")])
    [Json.obj [("alarmName", Json.str "B"),
        ("error", Json.obj [("code", Json.str "X"), ("description", Json.str "boom")])]]
    rfl rfl

end WinccUA
